import Mathlib

set_option autoImplicit false

/-!
Verification of the Image-Watermarker core against its design document.

The development shallowly embeds the watermarking engine and batch worker:
* `src/logic/watermarkworker.py` (`WatermarkWorker.run`) — directory scan,
  extension filter, per-file processing loop with error isolation;
* `src/logic/imagewatermarker.py` (`ImageWatermarker.apply_watermark_image`
  geometry, `apply_watermark_text` blank-text handling and repeat tiling);
* `src/Base.py` (`ImageWatermarker.apply_watermark` parameter validation and
  alpha scaling).

Machine reals that the Python code manipulates as floats are idealised as
rationals; `int(...)` and `round(...)` are modelled explicitly.  External
effects (the filesystem listing, PIL decode/encode, font metrics) are passed
in as explicit data so that the control flow of the source is preserved.
-/

/-! ### Python primitive semantics -/

/-- Python `int(q)`: truncation toward zero. -/
def pyInt (q : ℚ) : ℤ := if 0 ≤ q then ⌊q⌋ else ⌈q⌉

/-- Python `round(q)` with no digits argument: round half to even. -/
def pyRound (q : ℚ) : ℤ :=
  if q - ⌊q⌋ < 1/2 then ⌊q⌋
  else if 1/2 < q - ⌊q⌋ then ⌊q⌋ + 1
  else if ⌊q⌋ % 2 = 0 then ⌊q⌋ else ⌊q⌋ + 1

/-- ASCII whitespace recognised by Python `str.strip()`. -/
def pyIsSpace (c : Char) : Bool :=
  c = ' ' || c = '\t' || c = '\n' || c = '\x0d' || c = '\x0b' || c = '\x0c'

/-- Python `str.strip()` on the character list of a string. -/
def pyStripList (l : List Char) : List Char :=
  ((l.dropWhile pyIsSpace).reverse.dropWhile pyIsSpace).reverse

/-- Python `str.strip()`. -/
def pyStrip (s : String) : String := ⟨pyStripList s.data⟩

/-- Python `str.lower()` (ASCII-adequate: per-character lowering). -/
def pyLower (s : String) : String := ⟨s.data.map Char.toLower⟩

/-- Python `s.endswith(suffix)`. -/
def pyEndsWith (s suffix : String) : Bool := List.isSuffixOf suffix.data s.data

theorem pyInt_of_nonneg {q : ℚ} (h : 0 ≤ q) : pyInt q = ⌊q⌋ := by
  simp [pyInt, h]

theorem pyInt_nonneg {q : ℚ} (h : 0 ≤ q) : 0 ≤ pyInt q := by
  rw [pyInt_of_nonneg h]
  exact Int.floor_nonneg.mpr h

/-! ### Directory scan and extension filter (`watermarkworker.py` lines 49-51,
`Base.py` lines 217-218) -/

/-- The tuple of supported extensions passed to `str.endswith`. -/
def supportedExtensions : List String := [".png", ".jpg", ".jpeg", ".bmp", ".gif"]

/-- `f.lower().endswith(('.png', '.jpg', '.jpeg', '.bmp', '.gif'))`. -/
def isSupportedFile (f : String) : Bool :=
  supportedExtensions.any (fun e => pyEndsWith (pyLower f) e)

/-- The list comprehension filtering `os.listdir` output
(`watermarkworker.py` lines 50-51). -/
def filterImageFiles (files : List String) : List String :=
  files.filter isSupportedFile

/-- Spec-side predicate: the name ends, case-insensitively, in the given
extension (some suffix of the name lowers to the extension). -/
def ciEndsWith (s ext : String) : Prop :=
  ∃ t : List Char, t <:+ s.data ∧ t.map Char.toLower = ext.data

/-- Spec-side selection predicate of §6: the entry name ends,
case-insensitively, in one of the five supported extensions. -/
def specSupported (f : String) : Prop :=
  ∃ e ∈ supportedExtensions, ciEndsWith f e

/-! ### The batch worker (`WatermarkWorker.run`, `src/logic/watermarkworker.py`) -/

/-- Result of the `os.path.isdir` check plus `os.listdir` call
(lines 42-67): either one recorded error message, or the entry list. -/
inductive DirListing where
  | failure (msg : String)
  | ok (files : List String)

/-- The engine the worker drives, as an oracle: for each filename the outcome
of `apply_watermark_image` / `apply_watermark_text` (ok, or the exception
message). -/
structure Engine where
  applyImage : String → Except String Unit
  applyText : String → Except String Unit

/-- A call the worker makes into the engine (only these calls open or write
image files). -/
inductive EngineCall where
  | image (f : String)
  | text (f : String)
deriving DecidableEq

/-- The `if/elif` type dispatch in the loop body (lines 82-93): anything other
than `"image"`/`"text"` falls through with no call and no exception. -/
def processFile (wtype : String) (eng : Engine) (f : String) : Except String Unit :=
  if wtype = "image" then eng.applyImage f
  else if wtype = "text" then eng.applyText f
  else Except.ok ()

/-- The engine calls issued for one file by the type dispatch. -/
def processFileCalls (wtype : String) (f : String) : List EngineCall :=
  if wtype = "image" then [EngineCall.image f]
  else if wtype = "text" then [EngineCall.text f]
  else []

/-- `f"Error processing {filename}: {e}"` (line 98). -/
def perFileError (f msg : String) : String :=
  "Error processing " ++ f ++ ": " ++ msg

/-- Whether processing the file succeeds (increments `processed_count`). -/
def applyOk (wtype : String) (eng : Engine) (f : String) : Bool :=
  match processFile wtype eng f with
  | Except.ok _ => true
  | Except.error _ => false

/-- The error entry a file contributes, if any. -/
def errorEntry (wtype : String) (eng : Engine) (f : String) : Option String :=
  match processFile wtype eng f with
  | Except.ok _ => none
  | Except.error e => some (perFileError f e)

/-- The `for i, filename in enumerate(image_files)` loop (lines 77-100):
returns (`processed_count`, `errors`, engine calls made), errors in file
order. -/
def runLoop (wtype : String) (eng : Engine) : List String → ℕ × List String × List EngineCall
  | [] => (0, [], [])
  | f :: rest =>
    let tail := runLoop wtype eng rest
    match processFile wtype eng f with
    | Except.ok _ => (tail.1 + 1, tail.2.1, processFileCalls wtype f ++ tail.2.2)
    | Except.error e =>
        (tail.1, perFileError f e :: tail.2.1, processFileCalls wtype f ++ tail.2.2)

/-- The final `job_finished` payload: (`processed_count`, `total_images`,
`errors`). -/
structure RunResult where
  processed : ℕ
  total : ℕ
  errors : List String
deriving DecidableEq

/-- Line 74: the single message emitted when the filter leaves nothing. -/
def noFilesMessage : String := "No supported image files found in the input folder."

/-- `WatermarkWorker.run` (`src/logic/watermarkworker.py` lines 33-103),
with the directory access result and the engine passed in explicitly.
Returns the emitted result and the engine calls the run performed. -/
def WatermarkWorker.run (listing : DirListing) (wtype : String) (eng : Engine) :
    RunResult × List EngineCall :=
  match listing with
  | DirListing.failure msg => (⟨0, 0, [msg]⟩, [])
  | DirListing.ok files =>
    let image_files := filterImageFiles files
    if image_files = [] then (⟨0, 0, [noFilesMessage]⟩, [])
    else
      let r := runLoop wtype eng image_files
      (⟨r.1, image_files.length, r.2.1⟩, r.2.2)

/-! ### Loop invariants -/

theorem runLoop_processed (wtype : String) (eng : Engine) (files : List String) :
    (runLoop wtype eng files).1 = (files.filter (applyOk wtype eng)).length := by
  induction files with
  | nil => rfl
  | cons f rest ih =>
    simp only [runLoop, List.filter]
    cases h : processFile wtype eng f with
    | ok u => simp [applyOk, h, ih]
    | error e => simp [applyOk, h, ih]

theorem runLoop_errors (wtype : String) (eng : Engine) (files : List String) :
    (runLoop wtype eng files).2.1 = files.filterMap (errorEntry wtype eng) := by
  induction files with
  | nil => rfl
  | cons f rest ih =>
    simp only [runLoop, List.filterMap]
    cases h : processFile wtype eng f with
    | ok u => simp [errorEntry, h, ih]
    | error e => simp [errorEntry, h, ih]

theorem runLoop_balance (wtype : String) (eng : Engine) (files : List String) :
    (runLoop wtype eng files).1 + (runLoop wtype eng files).2.1.length = files.length := by
  induction files with
  | nil => rfl
  | cons f rest ih =>
    simp only [runLoop]
    cases h : processFile wtype eng f <;> simp [h] <;> omega

theorem runLoop_unknown_type (wtype : String) (eng : Engine) (files : List String)
    (h1 : wtype ≠ "image") (h2 : wtype ≠ "text") :
    runLoop wtype eng files = (files.length, [], []) := by
  induction files with
  | nil => rfl
  | cons f rest ih =>
    simp [runLoop, processFile, processFileCalls, if_neg h1, if_neg h2, ih]

/-- One file's name occurs inside its recorded error entry. -/
theorem perFileError_infix (f e : String) : f.data <:+: (perFileError f e).data := by
  refine ⟨("Error processing " : String).data, ((": " : String) ++ e).data, ?_⟩
  simp [perFileError, String.data_append]

theorem errorEntry_some {wtype : String} {eng : Engine} {f err : String}
    (h : errorEntry wtype eng f = some err) :
    applyOk wtype eng f = false ∧ ∃ e, err = perFileError f e := by
  unfold errorEntry at h
  unfold applyOk
  cases hp : processFile wtype eng f with
  | ok u => rw [hp] at h; exact absurd h (by simp)
  | error e =>
    rw [hp] at h
    exact ⟨rfl, e, (Option.some_inj.mp h).symm⟩

/-- Engine whose every application succeeds. -/
def okEngine : Engine :=
  ⟨fun _ => Except.ok (), fun _ => Except.ok ()⟩

/-- Engine that fails (with a decode message) exactly on the one named file. -/
def failOn (bad : String) : Engine :=
  ⟨fun f => if f = bad then Except.error "cannot identify image file" else Except.ok (),
   fun _ => Except.ok ()⟩

/-- C1: for a batch run over a readable directory with at least one supported
file, per-file engine failures are caught and isolated: the emitted result
reports total = number of enumerated (filtered) files, processed = number of
files whose engine application succeeded, and the error list has exactly one
entry per failed file, each entry containing that file's name. -/
theorem run_per_file_isolation (files : List String) (wtype : String) (eng : Engine)
    (hne : filterImageFiles files ≠ []) :
    (WatermarkWorker.run (DirListing.ok files) wtype eng).1.total
        = (filterImageFiles files).length ∧
    (WatermarkWorker.run (DirListing.ok files) wtype eng).1.processed
        = ((filterImageFiles files).filter (applyOk wtype eng)).length ∧
    (WatermarkWorker.run (DirListing.ok files) wtype eng).1.errors
        = (filterImageFiles files).filterMap (errorEntry wtype eng) ∧
    ∀ err ∈ (WatermarkWorker.run (DirListing.ok files) wtype eng).1.errors,
      ∃ f ∈ filterImageFiles files, applyOk wtype eng f = false ∧ f.data <:+: err.data := by
  have hrun : WatermarkWorker.run (DirListing.ok files) wtype eng
      = (⟨(runLoop wtype eng (filterImageFiles files)).1,
          (filterImageFiles files).length,
          (runLoop wtype eng (filterImageFiles files)).2.1⟩,
         (runLoop wtype eng (filterImageFiles files)).2.2) := by
    simp [WatermarkWorker.run, if_neg hne]
  refine ⟨by rw [hrun], ?_, ?_, ?_⟩
  · rw [hrun]; exact runLoop_processed wtype eng (filterImageFiles files)
  · rw [hrun]; exact runLoop_errors wtype eng (filterImageFiles files)
  · intro err herr
    rw [hrun] at herr
    rw [runLoop_errors] at herr
    rcases List.mem_filterMap.mp herr with ⟨f, hf, hsome⟩
    rcases errorEntry_some hsome with ⟨hok, e, he⟩
    exact ⟨f, hf, hok, he ▸ perFileError_infix f e⟩

/-- C1 witness: two supported files, the engine failing on one of them. -/
theorem run_per_file_isolation_witness :
    filterImageFiles ["a.png", "b.txt", "bad.jpg"] ≠ [] ∧
    (WatermarkWorker.run (DirListing.ok ["a.png", "b.txt", "bad.jpg"]) "image"
        (failOn "bad.jpg")).1.total = 2 ∧
    (WatermarkWorker.run (DirListing.ok ["a.png", "b.txt", "bad.jpg"]) "image"
        (failOn "bad.jpg")).1.processed = 1 ∧
    (WatermarkWorker.run (DirListing.ok ["a.png", "b.txt", "bad.jpg"]) "image"
        (failOn "bad.jpg")).1.errors
      = ["Error processing bad.jpg: cannot identify image file"] := by
  have h := run_per_file_isolation ["a.png", "b.txt", "bad.jpg"] "image"
    (failOn "bad.jpg") (by decide)
  exact ⟨by decide, h.1.trans (by decide), h.2.1.trans (by decide), h.2.2.1.trans (by decide)⟩

/-- C4: a readable input directory with zero supported files ends the run at
once with processed = 0, total = 0 and exactly the one informational message,
and no engine call is made. -/
theorem run_no_supported_files (files : List String) (wtype : String) (eng : Engine)
    (h : filterImageFiles files = []) :
    WatermarkWorker.run (DirListing.ok files) wtype eng = (⟨0, 0, [noFilesMessage]⟩, []) := by
  simp [WatermarkWorker.run, h]

/-- C4 witness: a directory holding only an unsupported file. -/
theorem run_no_supported_files_witness :
    filterImageFiles ["notes.txt"] = [] ∧
    WatermarkWorker.run (DirListing.ok ["notes.txt"]) "image" okEngine
      = (⟨0, 0, [noFilesMessage]⟩, []) :=
  ⟨by decide, run_no_supported_files ["notes.txt"] "image" okEngine (by decide)⟩

/-- C9: once the per-file loop is reached (at least one enumerated file), each
file contributes either a processed increment or one error entry, so the
emitted result satisfies processed + number of errors = total. -/
theorem processed_plus_errors_eq_total (files : List String) (wtype : String) (eng : Engine)
    (hne : filterImageFiles files ≠ []) :
    (WatermarkWorker.run (DirListing.ok files) wtype eng).1.processed
      + (WatermarkWorker.run (DirListing.ok files) wtype eng).1.errors.length
      = (WatermarkWorker.run (DirListing.ok files) wtype eng).1.total := by
  have hrun : WatermarkWorker.run (DirListing.ok files) wtype eng
      = (⟨(runLoop wtype eng (filterImageFiles files)).1,
          (filterImageFiles files).length,
          (runLoop wtype eng (filterImageFiles files)).2.1⟩,
         (runLoop wtype eng (filterImageFiles files)).2.2) := by
    simp [WatermarkWorker.run, if_neg hne]
  rw [hrun]
  exact runLoop_balance wtype eng (filterImageFiles files)

/-- C9 witness: one good file and one failing file. -/
theorem processed_plus_errors_eq_total_witness :
    filterImageFiles ["a.png", "bad.jpg"] ≠ [] ∧
    (WatermarkWorker.run (DirListing.ok ["a.png", "bad.jpg"]) "image"
        (failOn "bad.jpg")).1.processed
      + (WatermarkWorker.run (DirListing.ok ["a.png", "bad.jpg"]) "image"
        (failOn "bad.jpg")).1.errors.length
      = (WatermarkWorker.run (DirListing.ok ["a.png", "bad.jpg"]) "image"
        (failOn "bad.jpg")).1.total :=
  ⟨by decide,
   processed_plus_errors_eq_total ["a.png", "bad.jpg"] "image" (failOn "bad.jpg") (by decide)⟩

/-- C10 counterexample: with an unrecognized watermark type and a readable
directory whose files are all unsupported, the final result's error list is
not empty (it carries the informational no-files message), contradicting the
claim that every such run reports an empty error list. -/
theorem unknown_type_empty_dir_error_cex :
    (WatermarkWorker.run (DirListing.ok ["notes.txt"]) "stamp" okEngine).1.errors ≠ []
      ∧ "stamp" ≠ "image" ∧ "stamp" ≠ "text" := by decide

/-- C10 (amended): for a watermark type other than "image" and "text", on a
run that enumerates at least one supported file, no engine call is made (so
nothing is decoded or written), no error is recorded, and every enumerated
file still increments the processed count: the result is
(processed = total, total, no errors) with an empty call trace. -/
theorem unknown_type_counts_all_processed (files : List String) (wtype : String) (eng : Engine)
    (h1 : wtype ≠ "image") (h2 : wtype ≠ "text") (hne : filterImageFiles files ≠ []) :
    WatermarkWorker.run (DirListing.ok files) wtype eng
      = (⟨(filterImageFiles files).length, (filterImageFiles files).length, []⟩, []) := by
  simp [WatermarkWorker.run, if_neg hne, runLoop_unknown_type wtype eng _ h1 h2]

/-- C10 witness: watermark type "stamp" over one supported file. -/
theorem unknown_type_counts_all_processed_witness :
    "stamp" ≠ "image" ∧ "stamp" ≠ "text" ∧ filterImageFiles ["a.png"] ≠ [] ∧
    WatermarkWorker.run (DirListing.ok ["a.png"]) "stamp" okEngine
      = (⟨1, 1, []⟩, []) := by
  refine ⟨by decide, by decide, by decide, ?_⟩
  have h := unknown_type_counts_all_processed ["a.png"] "stamp" okEngine
    (by decide) (by decide) (by decide)
  rw [h]
  decide

/-! ### Watermark footprint geometry
(`ImageWatermarker.apply_watermark_image`, `src/logic/imagewatermarker.py`
lines 25-36) -/

/-- The resize target passed to `self.watermark_image.resize(...)`. -/
structure Footprint where
  width : ℤ
  height : ℤ
deriving DecidableEq

/-- Lines 27-36: `target_wm_size = int(min(img_width, img_height) * size_ratio)`;
the asset's longer side is set to the target, the shorter side derived through
float division and truncated with `int`, and both sides are clamped below by
`max(1, ...)`. -/
def computeFootprint (imgW imgH wmW wmH : ℕ) (r : ℚ) : Footprint :=
  let target : ℤ := pyInt (((min imgW imgH : ℕ) : ℚ) * r)
  if wmH < wmW then
    let nw := target
    let nh := pyInt ((wmH : ℚ) * ((nw : ℚ) / (wmW : ℚ)))
    ⟨max 1 nw, max 1 nh⟩
  else
    let nh := target
    let nw := pyInt ((wmW : ℚ) * ((nh : ℚ) / (wmH : ℚ)))
    ⟨max 1 nw, max 1 nh⟩

theorem pyInt_scale_le (a b : ℕ) (t : ℤ) (hab : a ≤ b) (hb : 1 ≤ b) (ht : 0 ≤ t) :
    pyInt ((a : ℚ) * ((t : ℚ) / (b : ℚ))) ≤ t := by
  have hb0 : (0 : ℚ) < (b : ℚ) := by exact_mod_cast hb
  have ht0 : (0 : ℚ) ≤ (t : ℚ) := by exact_mod_cast ht
  have hx0 : (0 : ℚ) ≤ (a : ℚ) * ((t : ℚ) / (b : ℚ)) :=
    mul_nonneg (Nat.cast_nonneg a) (div_nonneg ht0 hb0.le)
  rw [pyInt_of_nonneg hx0]
  have hle : (a : ℚ) * ((t : ℚ) / (b : ℚ)) ≤ (t : ℚ) := by
    rw [mul_div_assoc', div_le_iff₀ hb0]
    exact mul_le_mul_of_nonneg_right (by exact_mod_cast hab) ht0 |>.trans
      (le_of_eq (mul_comm _ _)) |>.trans (le_of_eq rfl)
  calc ⌊(a : ℚ) * ((t : ℚ) / (b : ℚ))⌋ ≤ ⌊(t : ℚ)⌋ := Int.floor_le_floor hle
    _ = t := Int.floor_intCast t

/-- C2 counterexample: base image 3x3, watermark asset 2x1, size ratio 1/2.
The code truncates `min(W,H)*r = 1.5` to 1, while the claim requires the
longer footprint side to equal `round(1.5) = 2`. -/
theorem footprint_longer_side_not_rounded :
    (computeFootprint 3 3 2 1 (1/2)).width = 1 ∧
    pyRound (((min 3 3 : ℕ) : ℚ) * (1/2)) = 2 ∧
    (computeFootprint 3 3 2 1 (1/2)).width ≠ pyRound (((min 3 3 : ℕ) : ℚ) * (1/2)) := by
  norm_num [computeFootprint, pyInt, pyRound]

/-- C2 (amended): the footprint side matching the asset's longer dimension is
`max(1, int(min(W,H) * r))` — truncation, not rounding, clamped below at 1 —
the other side is the proportional value truncated and clamped, and both
sides are at least 1, with the shorter-dimension side never exceeding the
longer-dimension side. -/
theorem footprint_scaling_amended (imgW imgH wmW wmH : ℕ) (r : ℚ)
    (hw : 1 ≤ wmW) (hh : 1 ≤ wmH) (hr : 0 ≤ r) :
    1 ≤ (computeFootprint imgW imgH wmW wmH r).width ∧
    1 ≤ (computeFootprint imgW imgH wmW wmH r).height ∧
    (wmH < wmW →
      (computeFootprint imgW imgH wmW wmH r).width
          = max 1 (pyInt (((min imgW imgH : ℕ) : ℚ) * r)) ∧
      (computeFootprint imgW imgH wmW wmH r).height
          ≤ (computeFootprint imgW imgH wmW wmH r).width) ∧
    (wmW ≤ wmH →
      (computeFootprint imgW imgH wmW wmH r).height
          = max 1 (pyInt (((min imgW imgH : ℕ) : ℚ) * r)) ∧
      (computeFootprint imgW imgH wmW wmH r).width
          ≤ (computeFootprint imgW imgH wmW wmH r).height) := by
  have ht : 0 ≤ pyInt (((min imgW imgH : ℕ) : ℚ) * r) :=
    pyInt_nonneg (mul_nonneg (Nat.cast_nonneg _) hr)
  by_cases h : wmH < wmW
  · have hfp : computeFootprint imgW imgH wmW wmH r
        = ⟨max 1 (pyInt (((min imgW imgH : ℕ) : ℚ) * r)),
           max 1 (pyInt ((wmH : ℚ)
             * ((pyInt (((min imgW imgH : ℕ) : ℚ) * r) : ℚ) / (wmW : ℚ))))⟩ := by
      simp [computeFootprint, if_pos h]
    rw [hfp]
    refine ⟨le_max_left 1 _, le_max_left 1 _, fun _ => ⟨rfl, ?_⟩, fun h' => absurd h' (by omega)⟩
    exact max_le_max le_rfl (pyInt_scale_le wmH wmW _ h.le hw ht)
  · have h' : wmW ≤ wmH := Nat.le_of_not_lt h
    have hfp : computeFootprint imgW imgH wmW wmH r
        = ⟨max 1 (pyInt ((wmW : ℚ)
             * ((pyInt (((min imgW imgH : ℕ) : ℚ) * r) : ℚ) / (wmH : ℚ)))),
           max 1 (pyInt (((min imgW imgH : ℕ) : ℚ) * r))⟩ := by
      simp [computeFootprint, if_neg h]
    rw [hfp]
    refine ⟨le_max_left 1 _, le_max_left 1 _, fun hlt => absurd hlt (by omega), fun _ => ⟨rfl, ?_⟩⟩
    exact max_le_max le_rfl (pyInt_scale_le wmW wmH _ h' hh ht)

/-- C2 witness for the amended statement: a 100x80 base with a 40x20 asset at
ratio 1/4 — the footprint is 20x10, longer side `max(1, int(80 * 1/4)) = 20`. -/
theorem footprint_scaling_amended_witness :
    1 ≤ (40 : ℕ) ∧ 1 ≤ (20 : ℕ) ∧ (0 : ℚ) ≤ 1/4 ∧
    (computeFootprint 100 80 40 20 (1/4)).width
        = max 1 (pyInt (((min 100 80 : ℕ) : ℚ) * (1/4))) ∧
    (computeFootprint 100 80 40 20 (1/4)).width = 20 ∧
    (computeFootprint 100 80 40 20 (1/4)).height = 10 := by
  have h := footprint_scaling_amended 100 80 40 20 (1/4)
    (by norm_num) (by norm_num) (by norm_num)
  refine ⟨by norm_num, by norm_num, by norm_num, (h.2.2.1 (by norm_num)).1, ?_, ?_⟩ <;>
    norm_num [computeFootprint, pyInt]

/-! ### Alpha scaling of the overlay
(`ImageWatermarker.apply_watermark`, `src/Base.py` lines 102-104) -/

/-- `lambda x: int(x * watermark_opacity)` applied by `Image.eval` to one
alpha value. -/
def evalAlphaPixel (opacity : ℚ) (x : ℕ) : ℤ := pyInt ((x : ℚ) * opacity)

/-- `Image.eval(alpha, ...)`: the per-pixel map over the whole alpha band. -/
def adjustBandOpacity (opacity : ℚ) (band : List ℕ) : List ℤ :=
  band.map (evalAlphaPixel opacity)

/-- C6 counterexample: an overlay pixel with alpha 1 at opacity 3/4. The code
truncates `1 * 0.75` to 0, while the claim requires `round(0.75) = 1`. -/
theorem alpha_scaling_truncates_not_rounds :
    evalAlphaPixel (3/4) 1 = 0 ∧ pyRound ((1 : ℚ) * (3/4)) = 1 ∧
    evalAlphaPixel (3/4) 1 ≠ pyRound ((1 : ℚ) * (3/4)) := by
  norm_num [evalAlphaPixel, pyInt, pyRound]

/-- C6 (amended): the compositor sets each overlay pixel's new alpha to
`int(a * p)` = floor of `a * p` (truncation, not rounding); alpha 0 still
maps to 0, and the same map is applied uniformly to every pixel of the band,
monotonically in the original alpha. -/
theorem alpha_scaling_amended (p : ℚ) (hp : 0 ≤ p) :
    (∀ a : ℕ, evalAlphaPixel p a = ⌊(a : ℚ) * p⌋) ∧
    evalAlphaPixel p 0 = 0 ∧
    (∀ a b : ℕ, a ≤ b → evalAlphaPixel p a ≤ evalAlphaPixel p b) ∧
    (∀ band : List ℕ, adjustBandOpacity p band = band.map (evalAlphaPixel p)) := by
  refine ⟨fun a => pyInt_of_nonneg (mul_nonneg (Nat.cast_nonneg a) hp), ?_, ?_, fun _ => rfl⟩
  · simp [evalAlphaPixel, pyInt]
  · intro a b hab
    unfold evalAlphaPixel
    rw [pyInt_of_nonneg (mul_nonneg (Nat.cast_nonneg a) hp),
      pyInt_of_nonneg (mul_nonneg (Nat.cast_nonneg b) hp)]
    exact Int.floor_le_floor (mul_le_mul_of_nonneg_right (by exact_mod_cast hab) hp)

/-- C6 witness for the amended statement at opacity 1/2: alpha 0 stays 0,
alpha 5 becomes `int(2.5)` = 2, and scaling is monotone between alphas 3 and
200. -/
theorem alpha_scaling_amended_witness :
    (0 : ℚ) ≤ 1/2 ∧ evalAlphaPixel (1/2) 0 = 0 ∧ evalAlphaPixel (1/2) 5 = 2 ∧
    evalAlphaPixel (1/2) 3 ≤ evalAlphaPixel (1/2) 200 := by
  have h := alpha_scaling_amended (1/2) (by norm_num)
  exact ⟨by norm_num, h.2.1, (h.1 5).trans (by norm_num), h.2.2.1 3 200 (by norm_num)⟩

/-! ### Parameter validation of the engine apply operation
(`ImageWatermarker.apply_watermark`, `src/Base.py` lines 48-189) -/

/-- The two error classes `apply_watermark` can raise: `ValueError` from the
range checks placed before the `try` block (lines 70-73), and `IOError`
wrapping every failure raised inside the `try` block (line 189). -/
inductive ApplyError where
  | valueError (msg : String)
  | ioError (msg : String)
deriving DecidableEq

/-- The `text_watermark_details` dict of `Base.py` (line 113-115 keys). -/
structure BaseTextDetails where
  text : String
  font_path : String
  color_rgb : ℕ × ℕ × ℕ

/-- The I/O world `apply_watermark` touches after validation: whether the
input image decodes (and its size), whether a watermark asset was loaded
(and its size), and whether saving the output succeeds. -/
structure ApplyEnv where
  baseImage : Option (ℕ × ℕ)
  loadedAsset : Option (ℕ × ℕ)
  saveOk : Bool

/-- Line 71 message. -/
def sizeRangeMsg : String := "Watermark size percentage must be between 0 and 1."

/-- Line 73 message. -/
def opacityRangeMsg : String := "Watermark opacity must be between 0 and 1."

/-- The `try` block of `apply_watermark` (lines 75-189): decode the input,
dispatch on the watermark kind (image kind needs a loaded asset, text kind
needs details, with an early passthrough save when the text is empty;
any other kind raises), then save; every failure here is re-raised as
`IOError` (line 189). The pixel math inside the block cannot change which
error class comes out and is modelled separately (`computeFootprint`,
`evalAlphaPixel`). -/
def apply_watermark_body (wtype : String) (details : Option BaseTextDetails)
    (env : ApplyEnv) : Except ApplyError Unit :=
  match env.baseImage with
  | none => Except.error (ApplyError.ioError "cannot open input image")
  | some _ =>
    if wtype = "image" then
      match env.loadedAsset with
      | none => Except.error (ApplyError.ioError
          "No image watermark loaded. Please load a watermark image first.")
      | some _ =>
        if env.saveOk then Except.ok ()
        else Except.error (ApplyError.ioError "cannot save output image")
    else if wtype = "text" then
      match details with
      | none => Except.error (ApplyError.ioError "Text watermark details are missing.")
      | some d =>
        if d.text = "" then
          if env.saveOk then Except.ok ()
          else Except.error (ApplyError.ioError "cannot save output image")
        else
          if env.saveOk then Except.ok ()
          else Except.error (ApplyError.ioError "cannot save output image")
    else Except.error (ApplyError.ioError ("Unknown watermark type: " ++ wtype))

/-- `ImageWatermarker.apply_watermark` (`src/Base.py` lines 48-189): the two
ratio range checks run first (lines 70-73), before the `try` block performs
any of the I/O in `apply_watermark_body`. -/
def apply_watermark (size_percent opacity : ℚ) (wtype : String)
    (details : Option BaseTextDetails) (env : ApplyEnv) : Except ApplyError Unit :=
  if ¬ (0 ≤ size_percent ∧ size_percent ≤ 1) then
    Except.error (ApplyError.valueError sizeRangeMsg)
  else if ¬ (0 ≤ opacity ∧ opacity ≤ 1) then
    Except.error (ApplyError.valueError opacityRangeMsg)
  else apply_watermark_body wtype details env

theorem apply_watermark_body_no_valueError (wtype : String)
    (details : Option BaseTextDetails) (env : ApplyEnv) (m : String) :
    apply_watermark_body wtype details env ≠ Except.error (ApplyError.valueError m) := by
  unfold apply_watermark_body
  cases env.baseImage with
  | none => simp
  | some b =>
    by_cases hw : wtype = "image"
    · simp only [if_pos hw]
      cases env.loadedAsset <;> cases h : env.saveOk <;> simp [h]
    · simp only [if_neg hw]
      by_cases ht : wtype = "text"
      · simp only [if_pos ht]
        cases details with
        | none => simp
        | some d => by_cases hd : d.text = "" <;> cases h : env.saveOk <;> simp [hd, h]
      · simp [if_neg ht]

/-- C5: a call to the engine's apply operation with `size_ratio` or
`opacity_ratio` outside [0,1] fails with the corresponding `ValueError`
(InvalidParameter), identically for every I/O environment — so before any
image is read or written; with both ratios inside [0,1] no validation error
is ever produced, whatever the environment does. -/
theorem apply_watermark_validates_ratios (s o : ℚ) (wt : String)
    (d : Option BaseTextDetails) :
    (¬ (0 ≤ s ∧ s ≤ 1) → ∀ env : ApplyEnv,
        apply_watermark s o wt d env = Except.error (ApplyError.valueError sizeRangeMsg)) ∧
    ((0 ≤ s ∧ s ≤ 1) → ¬ (0 ≤ o ∧ o ≤ 1) → ∀ env : ApplyEnv,
        apply_watermark s o wt d env = Except.error (ApplyError.valueError opacityRangeMsg)) ∧
    ((0 ≤ s ∧ s ≤ 1) → (0 ≤ o ∧ o ≤ 1) → ∀ (env : ApplyEnv) (m : String),
        apply_watermark s o wt d env ≠ Except.error (ApplyError.valueError m)) := by
  refine ⟨fun h env => by simp [apply_watermark, h], ?_, ?_⟩
  · intro hs ho env
    simp [apply_watermark, hs, ho]
  · intro hs ho env m
    unfold apply_watermark
    rw [if_neg (not_not_intro hs), if_neg (not_not_intro ho)]
    exact apply_watermark_body_no_valueError wt d env m

/-- C5 witness: size ratio 2 is rejected with the size `ValueError` in a
fully healthy environment; with ratios 1/2 no `ValueError` is produced. -/
theorem apply_watermark_validates_ratios_witness :
    ¬ ((0 : ℚ) ≤ 2 ∧ (2 : ℚ) ≤ 1) ∧
    apply_watermark 2 (1/2) "image" none ⟨some (4, 4), some (2, 2), true⟩
      = Except.error (ApplyError.valueError sizeRangeMsg) ∧
    ((0 : ℚ) ≤ 1/2 ∧ (1/2 : ℚ) ≤ 1) ∧
    apply_watermark (1/2) (1/2) "image" none ⟨some (4, 4), some (2, 2), true⟩
      ≠ Except.error (ApplyError.valueError sizeRangeMsg) := by
  refine ⟨by norm_num, ?_, by norm_num, ?_⟩
  · exact (apply_watermark_validates_ratios 2 (1/2) "image" none).1 (by norm_num) _
  · exact (apply_watermark_validates_ratios (1/2) (1/2) "image" none).2.2
      (by norm_num) (by norm_num) _ _

/-! ### Text watermarking (`ImageWatermarker.apply_watermark_text`,
`src/logic/imagewatermarker.py` lines 57-197) -/

/-- The `text_details` keys the function reads (lines 82-86). Font family and
color only affect pixel colors, not the control flow or geometry modelled
here. -/
structure TextDetails where
  sender_text : String
  receiver_text : String
  repetition_enabled : Bool
  outline_enabled : Bool

/-- The `textbbox((0,0), s, font)` width/height for a string, supplied by the
font environment (PIL glyph metrics). -/
structure FontMetrics where
  bboxWidth : String → ℕ
  bboxHeight : String → ℕ

/-- Lines 92-97: keep each of the two lines when its `strip()` is truthy. -/
def textLines (td : TextDetails) : List String :=
  (if pyStrip td.sender_text ≠ "" then [td.sender_text] else []) ++
  (if pyStrip td.receiver_text ≠ "" then [td.receiver_text] else [])

/-- Lines 103-108: the repeating unit joining the available lines. -/
def combinedText (lines : List String) : String :=
  match lines with
  | [a, b] => a ++ " | " ++ b
  | [a] => a
  | _ => ""

/-- Lines 113-122 of the repeat branch: spacing = bounding box + 50 in each
axis, `int(size/spacing) + 2` repeats, centred start offsets (computed in
float, here exact rationals). -/
structure TilePlan where
  hspacing : ℕ
  vspacing : ℕ
  nx : ℕ
  ny : ℕ
  startX : ℚ
  startY : ℚ
deriving DecidableEq

def repeatPlan (imgW imgH : ℕ) (fm : FontMetrics) (combined : String) : TilePlan :=
  let tw := fm.bboxWidth combined
  let th := fm.bboxHeight combined
  let hs := tw + 50
  let vs := th + 50
  let nx := imgW / hs + 2
  let ny := imgH / vs + 2
  ⟨hs, vs, nx, ny,
    ((imgW : ℚ) - ((nx : ℚ) * (hs : ℚ) - 50)) / 2,
    ((imgH : ℚ) - ((ny : ℚ) * (vs : ℚ) - 50)) / 2⟩

/-- The position drawn at loop indices (row, col) (lines 124-127). -/
def tileOrigin (p : TilePlan) (row col : ℕ) : ℚ × ℚ :=
  (p.startX + (col : ℚ) * (p.hspacing : ℚ), p.startY + (row : ℚ) * (p.vspacing : ℚ))

/-- All positions the two nested `for` loops draw at. -/
def tileOrigins (p : TilePlan) : List (ℚ × ℚ) :=
  (List.range p.ny).flatMap (fun row => (List.range p.nx).map (tileOrigin p row))

/-- What `apply_watermark_text` saves when it does save: a repeated layout
with its tiling plan, or the centred single layout of up to two lines. -/
inductive TextRenderOutput where
  | repeated (plan : TilePlan) (combined : String)
  | single (lines : List String)
deriving DecidableEq

/-- `ImageWatermarker.apply_watermark_text` (lines 57-197), after the input
image decodes with size (imgW, imgH): `none` means the function returns
early writing no output file (lines 99-100 and 110-111); `some` means an
output file is composited and saved (lines 193-194) with the recorded
layout. -/
def apply_watermark_text (imgW imgH : ℕ) (fm : FontMetrics) (td : TextDetails) :
    Option TextRenderOutput :=
  let lines := textLines td
  if lines = [] then none
  else if td.repetition_enabled then
    let combined := combinedText lines
    if pyStrip combined = "" then none
    else some (TextRenderOutput.repeated (repeatPlan imgW imgH fm combined) combined)
  else some (TextRenderOutput.single lines)

/-- C3 counterexample: a text job with sender " " (whitespace-only) and
receiver "" returns at line 100 before any compositing or saving: no output
file is produced, contradicting the claim that an output pixel-identical to
the input is written. -/
theorem blank_text_writes_no_output_cex :
    apply_watermark_text 100 80 ⟨fun _ => 12, fun _ => 7⟩ ⟨" ", "", false, false⟩
      = none := by decide

/-- C3 (amended): for every text job in which both sender and receiver are
blank (empty or whitespace-only), `apply_watermark_text` returns early and
writes no output file at all; the input image is left untouched because
nothing is composited or saved. -/
theorem blank_text_no_output (imgW imgH : ℕ) (fm : FontMetrics) (td : TextDetails)
    (hs : pyStrip td.sender_text = "") (hr : pyStrip td.receiver_text = "") :
    apply_watermark_text imgW imgH fm td = none := by
  unfold apply_watermark_text textLines
  simp [hs, hr]

/-- C3 witness: blank sender and receiver on a 640x480 image in repeat mode. -/
theorem blank_text_no_output_witness :
    pyStrip " " = "" ∧ pyStrip "" = "" ∧
    apply_watermark_text 640 480 ⟨fun _ => 30, fun _ => 10⟩ ⟨" ", "", true, false⟩
      = none :=
  ⟨by decide, by decide, blank_text_no_output 640 480 _ _ (by decide) (by decide)⟩

theorem sum_const_nat (n c : ℕ) : ((List.range n).map (fun _ => c)).sum = n * c := by
  induction n with
  | zero => simp
  | succ k ih => rw [List.range_succ]; simp [ih, Nat.succ_mul]

/-- C7: in repeat mode the tile spacing is the text bounding box plus 50 in
each axis, the placement counts are floor(W/sx)+2 and floor(H/sy)+2, the two
nested loops draw exactly ny*nx tiles, and horizontally or vertically
adjacent tile origins differ by exactly the spacing. -/
theorem repeat_tiling_geometry (imgW imgH : ℕ) (fm : FontMetrics) (combined : String) :
    (repeatPlan imgW imgH fm combined).hspacing = fm.bboxWidth combined + 50 ∧
    (repeatPlan imgW imgH fm combined).vspacing = fm.bboxHeight combined + 50 ∧
    (repeatPlan imgW imgH fm combined).nx
      = ⌊(imgW : ℚ) / (((repeatPlan imgW imgH fm combined).hspacing : ℕ) : ℚ)⌋₊ + 2 ∧
    (repeatPlan imgW imgH fm combined).ny
      = ⌊(imgH : ℚ) / (((repeatPlan imgW imgH fm combined).vspacing : ℕ) : ℚ)⌋₊ + 2 ∧
    (tileOrigins (repeatPlan imgW imgH fm combined)).length
      = (repeatPlan imgW imgH fm combined).ny * (repeatPlan imgW imgH fm combined).nx ∧
    (∀ row col : ℕ,
      (tileOrigin (repeatPlan imgW imgH fm combined) row (col + 1)).1
          - (tileOrigin (repeatPlan imgW imgH fm combined) row col).1
        = ((repeatPlan imgW imgH fm combined).hspacing : ℚ) ∧
      (tileOrigin (repeatPlan imgW imgH fm combined) (row + 1) col).2
          - (tileOrigin (repeatPlan imgW imgH fm combined) row col).2
        = ((repeatPlan imgW imgH fm combined).vspacing : ℚ)) := by
  refine ⟨rfl, rfl, ?_, ?_, ?_, ?_⟩
  · show imgW / (fm.bboxWidth combined + 50) + 2
      = ⌊(imgW : ℚ) / ((fm.bboxWidth combined + 50 : ℕ) : ℚ)⌋₊ + 2
    rw [Nat.floor_div_nat, Nat.floor_natCast]
  · show imgH / (fm.bboxHeight combined + 50) + 2
      = ⌊(imgH : ℚ) / ((fm.bboxHeight combined + 50 : ℕ) : ℚ)⌋₊ + 2
    rw [Nat.floor_div_nat, Nat.floor_natCast]
  · simp only [tileOrigins, List.length_flatMap]
    rw [show (List.length ∘ fun row =>
          List.map (tileOrigin (repeatPlan imgW imgH fm combined) row)
            (List.range (repeatPlan imgW imgH fm combined).nx))
        = fun _ => (repeatPlan imgW imgH fm combined).nx from funext (fun row => by simp)]
    exact sum_const_nat _ _
  · intro row col
    refine ⟨?_, ?_⟩ <;> (simp only [tileOrigin]; push_cast; ring)

/-! ### Directory filter characterisation (C8) -/

theorem suffix_map_iff (f : Char → Char) (l₁ l₂ : List Char) :
    l₁ <:+ l₂.map f ↔ ∃ t, t <:+ l₂ ∧ t.map f = l₁ := by
  constructor
  · intro h
    refine ⟨l₂.drop (l₂.length - l₁.length), List.drop_suffix _ _, ?_⟩
    have hd := List.suffix_iff_eq_drop.mp h
    rw [List.map_drop]
    rw [List.length_map] at hd
    exact hd.symm
  · rintro ⟨t, ht, rfl⟩
    exact ht.map f

theorem isSupportedFile_iff (f : String) :
    isSupportedFile f = true ↔ specSupported f := by
  unfold isSupportedFile specSupported
  rw [List.any_eq_true]
  constructor
  · rintro ⟨e, he, hsuf⟩
    unfold pyEndsWith pyLower at hsuf
    rw [List.isSuffixOf_iff_suffix] at hsuf
    rcases (suffix_map_iff Char.toLower e.data f.data).mp hsuf with ⟨t, ht, hmap⟩
    exact ⟨e, he, t, ht, hmap⟩
  · rintro ⟨e, he, t, ht, hmap⟩
    refine ⟨e, he, ?_⟩
    unfold pyEndsWith pyLower
    rw [List.isSuffixOf_iff_suffix]
    exact (suffix_map_iff Char.toLower e.data f.data).mpr ⟨t, ht, hmap⟩

/-- C8: the scan selects exactly the entries whose names end,
case-insensitively, in one of .png/.jpg/.jpeg/.bmp/.gif; the run over a
listing coincides with the run over the pre-filtered listing (every other
entry contributes to neither total, processed, nor the error list); and the
spec's example directory filters to exactly its three image files. -/
theorem directory_filter_selects_supported :
    (∀ (files : List String) (f : String),
        f ∈ filterImageFiles files ↔ f ∈ files ∧ specSupported f) ∧
    (∀ (files : List String) (wtype : String) (eng : Engine),
        WatermarkWorker.run (DirListing.ok files) wtype eng
          = WatermarkWorker.run (DirListing.ok (filterImageFiles files)) wtype eng) ∧
    filterImageFiles ["a.png", "b.txt", "c.JPG", "d.bmp", "readme.md"]
      = ["a.png", "c.JPG", "d.bmp"] := by
  refine ⟨?_, ?_, by decide⟩
  · intro files f
    unfold filterImageFiles
    rw [List.mem_filter, isSupportedFile_iff]
  · intro files wtype eng
    have hidem : filterImageFiles (filterImageFiles files) = filterImageFiles files := by
      simp [filterImageFiles, List.filter_filter]
    simp only [WatermarkWorker.run, hidem]
